import Mathlib

/-!
Shallow embedding of the DaragaAPI repository (src/app.py and src/main.py):
a donation-initiation relay for M-Pesa STK push payments.

The repository has two revisions of the same FastAPI service:
* src/app.py — the full revision: a /donate handler that, after two upstream
  HTTP calls (OAuth token exchange, STK push), persists a Pending donation
  record in a Firestore collection, and a /mpesa-callback handler that looks
  the record up by CheckoutRequestID and updates it to Paid.
* src/main.py — an earlier revision with no database: /donate only performs
  the two upstream calls, and /mpesa-callback is a fixed acknowledgement.

Modelling conventions:
* Upstream HTTP responses (token exchange, STK push) are inputs to the
  handlers; the handlers are pure functions of the store, the request data,
  the upstream responses and the wall-clock strings they read.
* The Firestore collection is a list of records; the query
  where(checkout_request_id == cid).limit(1) picks the first matching
  element, and update mutates it in place.
* Python falsiness of an optional string (None or empty) is falsyStr.
* A JSON leaf value is Value (string, integer or null); a Python dict .get
  that may miss returns an Option.
* The Twilio notification send is fire-and-forget and does not affect the
  store or the response, so it is not part of the state.
-/

namespace Daraga

/-- A JSON leaf value as it appears in callback metadata and stored records:
a string, an integer, or null (the image of Python None). -/
inductive Value where
  | str : String → Value
  | int : Int → Value
  | null : Value
deriving DecidableEq, Repr

/-- Python truthiness test for an optional string: None and the empty string
are falsy (used for checkout_request_id and access_token checks). -/
def falsyStr : Option String → Bool
  | none => true
  | some s => s == ""

/-- Collapse a possibly-missing metadata value to the stored JSON value:
a missing value is stored as null by the Firestore update. -/
def valueOfOpt : Option Value → Value
  | some v => v
  | none => Value.null

/-- One element of the callback metadata Item list: a Name and an optional
Value (src/app.py line 145 reads item.get with key Value, which may miss). -/
structure MetaItem where
  name : String
  value : Option Value
deriving DecidableEq, Repr

/-- The dict comprehension of src/app.py line 145 followed by .get: build
the Name-to-Value mapping (later duplicates win, as in a Python dict) and
look a key up; the result is None when the key is absent or its stored
value is None — both read back as Python None. -/
def dictGet (items : List MetaItem) (key : String) : Option Value :=
  match items.reverse.find? (fun it => it.name == key) with
  | some it => it.value
  | none => none

/-- A donation document of the donations collection, as written by
src/app.py lines 119-128 and updated by lines 160-167. Fields that do not
exist until the update (receipt, transaction date, updated_at) are Options,
none meaning the field is absent from the document. -/
structure DonationRecord where
  name : String
  phone : Value
  amount : Value
  email : Option String
  message : String
  status : String
  checkout_request_id : String
  created_at : String
  mpesa_receipt_number : Option Value := none
  transaction_date : Option Value := none
  updated_at : Option String := none
deriving DecidableEq, Repr

/-- The stkCallback object of the callback envelope, after the defaulted
.get chains of src/app.py lines 138-147: an optional ResultCode, an
optional CallbackMetadata.Item list and an optional CheckoutRequestID.
A missing CallbackMetadata (or missing Item key) both default to the empty
list, so one Option covers both. -/
structure StkCallback where
  resultCode : Option Int
  callbackMetadata : Option (List MetaItem)
  checkoutRequestID : Option String
deriving DecidableEq, Repr

/-- The callback request body: body.get with key Body then key stkCallback
defaults to an empty dict at each level, so a missing Body or stkCallback
collapses to the all-absent StkCallback. -/
structure CallbackEnvelope where
  stkCallback : Option StkCallback
deriving DecidableEq, Repr

/-- The all-absent stkCallback produced by the empty-dict defaults. -/
def defaultStk : StkCallback := ⟨none, none, none⟩

/-- Extraction of src/app.py line 138: the stkCallback object, defaulted. -/
def getStk (body : CallbackEnvelope) : StkCallback :=
  body.stkCallback.getD defaultStk

/-- Update the first element of the list satisfying p by f, leaving all
other elements in place: the effect of the limit(1) query followed by the
in-place document update of src/app.py lines 154-167. -/
def updateFirst {α : Type} (p : α → Bool) (f : α → α) : List α → List α
  | [] => []
  | d :: ds => if p d then f d :: ds else d :: updateFirst p f ds

/-- The field overwrite of src/app.py lines 160-167 applied to one matched
document: status becomes Paid; receipt number, transaction date, amount and
phone are overwritten from the metadata mapping (null when missing); and
updated_at is set to the current time. All other fields are untouched. -/
def applyPayment (items : List MetaItem) (now : String) (d : DonationRecord) :
    DonationRecord :=
  { d with
    status := "Paid"
    mpesa_receipt_number := some (valueOfOpt (dictGet items "MpesaReceiptNumber"))
    transaction_date := some (valueOfOpt (dictGet items "TransactionDate"))
    amount := valueOfOpt (dictGet items "Amount")
    phone := valueOfOpt (dictGet items "PhoneNumber")
    updated_at := some now }

/-- Result of a callback invocation: the store after the call and the
message string of the returned acknowledgement (always HTTP 200). -/
structure CallbackResult where
  store : List DonationRecord
  message : String
deriving DecidableEq, Repr

/-- The /mpesa-callback handler of src/app.py lines 133-184. now is the
datetime.utcnow().isoformat() string read during the update. Lines 140-142:
a ResultCode different from 0 (including an absent one, since None compares
unequal to 0) returns the failed acknowledgement with no store access.
Line 149: an empty metadata mapping or a falsy CheckoutRequestID returns
the missing-metadata acknowledgement. Otherwise lines 152-167 update the
first document whose checkout_request_id equals the token. -/
def mpesa_callback (store : List DonationRecord) (body : CallbackEnvelope)
    (now : String) : CallbackResult :=
  if (getStk body).resultCode ≠ some 0 then
    { store := store, message := "Payment failed or cancelled" }
  else if ((getStk body).callbackMetadata.getD []).isEmpty
      || falsyStr (getStk body).checkoutRequestID then
    { store := store, message := "Missing payment metadata" }
  else
    { store := updateFirst
        (fun d => d.checkout_request_id == ((getStk body).checkoutRequestID.getD ""))
        (applyPayment ((getStk body).callbackMetadata.getD []) now) store
      message := "Callback received and donation updated successfully" }

/-- The token-exchange response as the /donate handlers read it: the HTTP
status and the optional access_token field of the JSON body. -/
structure AuthResponse where
  status : Nat
  access_token : Option String
deriving DecidableEq, Repr

/-- The JSON body of the STK push response: the optional CheckoutRequestID
field read at src/app.py line 115, and the rest of the body, opaque here,
returned verbatim to the caller. -/
structure PushJson where
  checkoutRequestID : Option String
  rest : String
deriving DecidableEq, Repr

/-- The STK push response: HTTP status, raw text (quoted in the error
detail on failure) and parsed JSON body. -/
structure PushResponse where
  status : Nat
  text : String
  json : PushJson
deriving DecidableEq, Repr

/-- The DonationRequest pydantic model of src/app.py lines 57-62. -/
structure DonationRequest where
  name : String
  phone : String
  amount : Int
  email : Option String := none
  message : String := ""
deriving DecidableEq, Repr

/-- What a /donate handler returns: either the push JSON body, or an
HTTPException with a status code and a detail string. -/
inductive HandlerOutcome where
  | ok : PushJson → HandlerOutcome
  | httpError : Nat → String → HandlerOutcome
deriving DecidableEq, Repr

/-- Result of a /donate invocation in the src/app.py revision: the store
after the call and the handler outcome. -/
structure DonateResult where
  store : List DonationRecord
  response : HandlerOutcome
deriving DecidableEq, Repr

/-- The /donate handler of src/app.py lines 70-131, with the two upstream
responses as inputs and createdAt the datetime.utcnow().isoformat() string.
A non-200 token response raises a 500 (line 77); the access_token field is
read but its absence is NOT checked in this revision. A non-200 push
response raises a 500 quoting the response text (line 111). A truthy
CheckoutRequestID appends one Pending record (lines 118-129) whose phone is
the donor phone prefixed with 254 (line 121); the push JSON body is
returned either way (line 131). -/
def donate (store : List DonationRecord) (data : DonationRequest)
    (tokenResp : AuthResponse) (stkResp : PushResponse)
    (createdAt : String) : DonateResult :=
  if tokenResp.status ≠ 200 then
    { store := store
      response := .httpError 500 "Failed to authenticate with Safaricom" }
  else if stkResp.status ≠ 200 then
    { store := store
      response := .httpError 500 ("Safaricom STK Push failed: " ++ stkResp.text) }
  else if falsyStr stkResp.json.checkoutRequestID then
    { store := store, response := .ok stkResp.json }
  else
    { store := store ++ [{
        name := data.name
        phone := Value.str ("254" ++ data.phone)
        amount := Value.int data.amount
        email := data.email
        message := data.message
        status := "Pending"
        checkout_request_id := stkResp.json.checkoutRequestID.getD ""
        created_at := createdAt }]
      response := .ok stkResp.json }

/-- The /donate handler of src/main.py lines 43-93. This revision has no
database. It checks the token status (line 50), then — unlike src/app.py —
also checks the access_token for falsiness (line 55), then the push status
(line 88), and returns the push JSON body. -/
def donate_main (_data : DonationRequest) (tokenResp : AuthResponse)
    (stkResp : PushResponse) : HandlerOutcome :=
  if tokenResp.status ≠ 200 then
    .httpError 500 "Failed to authenticate with Safaricom"
  else if falsyStr tokenResp.access_token then
    .httpError 500 "Access token not found in Safaricom response."
  else if stkResp.status ≠ 200 then
    .httpError 500 ("Safaricom STK Push failed: " ++ stkResp.text)
  else
    .ok stkResp.json

/-- The src/main.py /donate handler threaded over an ambient store: the
source module imports no database client and contains no store operation,
so the store passes through unchanged. -/
def donate_main_st (store : List DonationRecord) (data : DonationRequest)
    (tokenResp : AuthResponse) (stkResp : PushResponse) :
    List DonationRecord × HandlerOutcome :=
  (store, donate_main data tokenResp stkResp)

/-- The /mpesa-callback handler of src/main.py lines 95-100: it reads the
body, prints it, and returns a fixed acknowledgement; no lookup, no
mutation, for every payload. -/
def mpesa_callback_main (store : List DonationRecord)
    (_body : CallbackEnvelope) : CallbackResult :=
  { store := store, message := "Callback received successfully" }

/-- ASCII code of the character at an index of the standard base64
alphabet A-Z, a-z, 0-9, plus, slash. -/
def b64Char (n : Nat) : Nat :=
  if n < 26 then 65 + n
  else if n < 52 then 97 + (n - 26)
  else if n < 62 then 48 + (n - 52)
  else if n = 62 then 43
  else 47

/-- Standard base64 of a byte string (RFC 4648, the semantics of Python
base64.b64encode used at src/app.py line 85 and src/main.py line 62):
3-byte groups become 4 alphabet characters; a trailing group of 1 or 2
bytes is padded with the character 61, an equals sign. -/
def b64encode : List Nat → List Nat
  | [] => []
  | [a] => [b64Char (a / 4), b64Char (a % 4 * 16), 61, 61]
  | [a, b] => [b64Char (a / 4), b64Char (a % 4 * 16 + b / 16),
               b64Char (b % 16 * 4), 61]
  | a :: b :: c :: rest =>
      b64Char (a / 4) :: b64Char (a % 4 * 16 + b / 16) ::
      b64Char (b % 16 * 4 + c / 64) :: b64Char (c % 64) :: b64encode rest

/-- Bytes of an ASCII string (code points; equal to the UTF-8 encoding for
the ASCII shortcode, passkey and timestamp strings involved). -/
def strBytes (s : String) : List Nat := s.data.map Char.toNat

/-- The password derivation of src/app.py lines 83-85:
base64(SHORTCODE + PASSKEY + timestamp), over byte strings. -/
def password_app (shortcode passkey timestamp : List Nat) : List Nat :=
  b64encode (shortcode ++ passkey ++ timestamp)

/-- The password derivation of src/main.py lines 60-62, same lines in the
other revision. -/
def password_main (shortcode passkey timestamp : List Nat) : List Nat :=
  b64encode (shortcode ++ passkey ++ timestamp)

/-- Sample callback metadata: the complete four-item mapping of the spec
worked example. -/
def sampleItems : List MetaItem :=
  [⟨"Amount", some (Value.int 500)⟩,
   ⟨"MpesaReceiptNumber", some (Value.str "ABC123")⟩,
   ⟨"PhoneNumber", some (Value.str "254700000000")⟩,
   ⟨"TransactionDate", some (Value.int 20240101120000)⟩]

/-- Sample success callback: result code 0, complete metadata, token CRID. -/
def sampleBody : CallbackEnvelope :=
  ⟨some ⟨some 0, some sampleItems, some "CRID"⟩⟩

/-- Sample Pending record with token CRID. -/
def sampleRec : DonationRecord :=
  { name := "Alice"
    phone := Value.str "254712345678"
    amount := Value.int 400
    email := none
    message := ""
    status := "Pending"
    checkout_request_id := "CRID"
    created_at := "2024-01-01T00:00:00" }

/-- A second Pending record carrying the same token CRID. -/
def sampleRec2 : DonationRecord :=
  { sampleRec with name := "Bob" }

/-- Sample donation request. -/
def sampleReq : DonationRequest :=
  { name := "Alice", phone := "712345678", amount := 500 }


/-- Sample declined callback: result code 1. -/
def failBody : CallbackEnvelope :=
  ⟨some ⟨some 1, some sampleItems, some "CRID"⟩⟩

/-- Sample callback with the whole Body missing: every extracted field is
absent. -/
def absentBody : CallbackEnvelope := ⟨none⟩


/-! ## Helper lemmas -/

/-- updateFirst preserves the length of the list. -/
theorem updateFirst_length {α : Type} (p : α → Bool) (f : α → α) (l : List α) :
    (updateFirst p f l).length = l.length := by
  induction l with
  | nil => rfl
  | cons d ds ih =>
    by_cases h : p d = true
    · simp [updateFirst, h]
    · simp [updateFirst, h, ih]

/-- Every position of updateFirst p f l holds either the original element or
the image under f of the original element at that position. -/
theorem updateFirst_getElem_or {α : Type} (p : α → Bool) (f : α → α)
    (l : List α) (i : Nat) :
    (updateFirst p f l)[i]? = l[i]? ∨
      ∃ d, l[i]? = some d ∧ (updateFirst p f l)[i]? = some (f d) := by
  induction l generalizing i with
  | nil => left; rfl
  | cons d ds ih =>
    by_cases h : p d = true
    · cases i with
      | zero => right; exact ⟨d, by simp, by simp [updateFirst, h]⟩
      | succ n => left; simp [updateFirst, h]
    · cases i with
      | zero => left; simp [updateFirst, h]
      | succ n => simpa [updateFirst, h] using ih n

/-- When no element of the front segment satisfies p and r does, updateFirst
rewrites exactly r and keeps both segments. -/
theorem updateFirst_append {α : Type} (p : α → Bool) (f : α → α)
    (pre post : List α) (r : α)
    (hpre : ∀ d ∈ pre, p d = false) (hr : p r = true) :
    updateFirst p f (pre ++ r :: post) = pre ++ f r :: post := by
  induction pre with
  | nil => simp [updateFirst, hr]
  | cons d ds ih =>
    have hd : p d = false := hpre d (List.mem_cons_self d ds)
    have h2 : updateFirst p f (ds ++ r :: post) = ds ++ f r :: post :=
      ih (fun x hx => hpre x (List.mem_cons_of_mem d hx))
    simp [updateFirst, hd, h2]

/-- Absorption of a repeated first-match update: when f preserves the
predicate and g absorbs f, updating with f and then g equals updating with
g alone. -/
theorem updateFirst_absorb {α : Type} (p : α → Bool) (f g : α → α)
    (hp : ∀ x, p (f x) = p x) (hfg : ∀ x, g (f x) = g x) (l : List α) :
    updateFirst p g (updateFirst p f l) = updateFirst p g l := by
  induction l with
  | nil => rfl
  | cons d ds ih =>
    by_cases h : p d = true
    · simp [updateFirst, h, hp, hfg]
    · simp [updateFirst, h, ih]

/-- A successful metadata lookup forces the item list to be nonempty, which
is what the not-mpesa_data guard of src/app.py line 149 tests. -/
theorem dictGet_ne_nil (items : List MetaItem) (key : String) (v : Value)
    (h : dictGet items key = some v) : items.isEmpty = false := by
  cases items with
  | nil => simp [dictGet] at h
  | cons a as => rfl

/-- A result code different from some 0 short-circuits the callback into
the failed acknowledgement with the store untouched. -/
theorem mpesa_callback_not_zero (store : List DonationRecord)
    (body : CallbackEnvelope) (now : String)
    (h : (getStk body).resultCode ≠ some 0) :
    mpesa_callback store body now =
      { store := store, message := "Payment failed or cancelled" } := by
  unfold mpesa_callback
  rw [if_pos h]

/-! ## Claim theorems -/

/-- C1 counterexample: the claim quantifies over every stored record whose
checkout_request_id equals the callback token, but the limit(1) lookup of
src/app.py line 154 updates only the first match. With two records carrying
the token CRID, a success callback with complete metadata and token CRID
leaves the second matching record entirely unchanged — still Pending. -/
theorem mpesa_callback_second_match_untouched :
    (getStk sampleBody).resultCode = some 0 ∧
    (getStk sampleBody).checkoutRequestID = some "CRID" ∧
    sampleRec2.checkout_request_id = "CRID" ∧
    sampleRec2.status = "Pending" ∧
    ((mpesa_callback [sampleRec, sampleRec2] sampleBody "T1").store)[1]? =
      some sampleRec2 := by
  decide

/-- C1 (amended): for the FIRST stored record whose checkout_request_id
equals the token of a success callback with complete metadata — no earlier
record matching — processing overwrites exactly status (to Paid), amount,
phone, mpesa_receipt_number, transaction_date and updated_at with the
callback-metadata values, and leaves name, email, message, created_at and
checkout_request_id (and every other record) unchanged. -/
theorem mpesa_callback_updates_first_match
    (pre post : List DonationRecord) (r : DonationRecord)
    (body : CallbackEnvelope) (now cid : String)
    (amt rcpt ph td : Value)
    (h0 : (getStk body).resultCode = some 0)
    (hcid : (getStk body).checkoutRequestID = some cid)
    (hcid2 : cid ≠ "")
    (hA : dictGet ((getStk body).callbackMetadata.getD []) "Amount" = some amt)
    (hR : dictGet ((getStk body).callbackMetadata.getD []) "MpesaReceiptNumber" =
      some rcpt)
    (hP : dictGet ((getStk body).callbackMetadata.getD []) "PhoneNumber" = some ph)
    (hT : dictGet ((getStk body).callbackMetadata.getD []) "TransactionDate" =
      some td)
    (hpre : ∀ d ∈ pre, d.checkout_request_id ≠ cid)
    (hr : r.checkout_request_id = cid) :
    (mpesa_callback (pre ++ r :: post) body now).store =
      pre ++ { r with
        status := "Paid"
        amount := amt
        phone := ph
        mpesa_receipt_number := some rcpt
        transaction_date := some td
        updated_at := some now } :: post ∧
    (mpesa_callback (pre ++ r :: post) body now).message =
      "Callback received and donation updated successfully" := by
  have hempty : ((getStk body).callbackMetadata.getD []).isEmpty = false :=
    dictGet_ne_nil _ _ _ hA
  have hfal : falsyStr (getStk body).checkoutRequestID = false := by
    rw [hcid]
    simpa [falsyStr] using hcid2
  unfold mpesa_callback
  rw [if_neg (by simp [h0]), if_neg (by simp [hempty, hfal])]
  refine ⟨?_, rfl⟩
  show updateFirst _ _ (pre ++ r :: post) = _
  rw [hcid]
  have happ := updateFirst_append
    (fun d => d.checkout_request_id == ((some cid).getD ""))
    (applyPayment ((getStk body).callbackMetadata.getD []) now) pre post r
    (fun d hd => by simpa using hpre d hd)
    (by simpa using hr)
  rw [happ]
  simp [applyPayment, hA, hR, hP, hT, valueOfOpt]

/-- C1 witness: the amended theorem applied at the spec worked example —
one Pending record with token CRID and the sample success callback. -/
theorem mpesa_callback_updates_first_match_witness :
    (mpesa_callback ([] ++ sampleRec :: []) sampleBody "T1").store =
      [] ++ { sampleRec with
        status := "Paid"
        amount := Value.int 500
        phone := Value.str "254700000000"
        mpesa_receipt_number := some (Value.str "ABC123")
        transaction_date := some (Value.int 20240101120000)
        updated_at := some "T1" } :: [] ∧
    (mpesa_callback ([] ++ sampleRec :: []) sampleBody "T1").message =
      "Callback received and donation updated successfully" :=
  mpesa_callback_updates_first_match [] [] sampleRec sampleBody "T1" "CRID"
    (Value.int 500) (Value.str "ABC123") (Value.str "254700000000")
    (Value.int 20240101120000)
    (by decide) (by decide) (by decide) (by decide) (by decide) (by decide)
    (by decide) (by intro d hd; simp at hd) (by decide)

/-- C2 counterexample: a record that has transitioned to Paid is mutated
again by a later duplicate callback — the lookup of src/app.py line 154
filters on checkout_request_id only, not on status, so the second callback
re-updates the Paid record and changes its updated_at. -/
theorem paid_record_mutated_again :
    (((mpesa_callback [sampleRec] sampleBody "T1").store)[0]?.map
      DonationRecord.status = some "Paid") ∧
    (mpesa_callback (mpesa_callback [sampleRec] sampleBody "T1").store
      sampleBody "T2").store ≠
      (mpesa_callback [sampleRec] sampleBody "T1").store := by
  decide

/-- C2 (amended): every record created by /donate starts in status Pending;
the reconciler never deletes records (lengths are preserved) and the only
status it ever writes is Paid, so each position after a callback holds
either the untouched original record or a record with status Paid — the
status transition is Pending-to-Paid only. A Paid record can however be
mutated again by a later duplicate callback (see the counterexample). -/
theorem donation_lifecycle
    (store : List DonationRecord) (body : CallbackEnvelope) (now : String)
    (data : DonationRequest) (tokenResp : AuthResponse) (stkResp : PushResponse)
    (createdAt : String) :
    ((mpesa_callback store body now).store.length = store.length) ∧
    (∀ i : Nat, ((mpesa_callback store body now).store)[i]? = store[i]? ∨
      ((mpesa_callback store body now).store)[i]?.map DonationRecord.status =
        some "Paid") ∧
    ((donate store data tokenResp stkResp createdAt).store = store ∨
      ∃ rec, (donate store data tokenResp stkResp createdAt).store =
        store ++ [rec] ∧ rec.status = "Pending") := by
  refine ⟨?_, ?_, ?_⟩
  · unfold mpesa_callback
    split
    · rfl
    · split
      · rfl
      · exact updateFirst_length _ _ store
  · intro i
    unfold mpesa_callback
    split
    · left; rfl
    · split
      · left; rfl
      · rcases updateFirst_getElem_or
          (fun d => d.checkout_request_id == ((getStk body).checkoutRequestID.getD ""))
          (applyPayment ((getStk body).callbackMetadata.getD []) now) store i with
          h | ⟨d, _, h2⟩
        · left; exact h
        · right
          show (updateFirst _ _ store)[i]?.map DonationRecord.status = some "Paid"
          rw [h2]
          rfl
  · unfold donate
    split
    · left; rfl
    · split
      · left; rfl
      · split
        · left; rfl
        · right; exact ⟨_, rfl, rfl⟩

/-- C3 counterexample: processing the same success callback twice (at clock
readings T1 then T2) does not leave the store in the state of a single
processing at T1 — the second processing overwrites updated_at. -/
theorem duplicate_callback_changes_updated_at :
    (mpesa_callback (mpesa_callback [sampleRec] sampleBody "T1").store
      sampleBody "T2").store ≠
      (mpesa_callback [sampleRec] sampleBody "T1").store := by
  decide

/-- C3 (amended): duplicate delivery is idempotent up to updated_at —
processing the same callback twice leaves the store in exactly the state of
a single processing at the second clock reading; in particular, when both
processings read the same clock the store equals that of a single
processing. This holds for every store, every payload and every pair of
clock readings. -/
theorem mpesa_callback_absorb (store : List DonationRecord)
    (body : CallbackEnvelope) (t1 t2 : String) :
    ((mpesa_callback (mpesa_callback store body t1).store body t2).store =
      (mpesa_callback store body t2).store) ∧
    ((mpesa_callback (mpesa_callback store body t1).store body t1).store =
      (mpesa_callback store body t1).store) := by
  have key : ∀ u : String,
      (mpesa_callback (mpesa_callback store body t1).store body u).store =
        (mpesa_callback store body u).store := by
    intro u
    by_cases h1 : (getStk body).resultCode ≠ some 0
    · simp [mpesa_callback, h1]
    · by_cases h2 : (((getStk body).callbackMetadata.getD []).isEmpty
          || falsyStr (getStk body).checkoutRequestID) = true
      · simp [mpesa_callback, h1, h2]
      · simp only [mpesa_callback, if_neg h1, if_neg h2]
        exact updateFirst_absorb
          (fun d => d.checkout_request_id == ((getStk body).checkoutRequestID.getD ""))
          (applyPayment ((getStk body).callbackMetadata.getD []) t1)
          (applyPayment ((getStk body).callbackMetadata.getD []) u)
          (fun x => rfl) (fun x => rfl) store
  exact ⟨key t2, key t1⟩

/-- C4 counterexample: the donor-declared phone is not preserved verbatim —
src/app.py line 121 stores it prefixed with the country code 254. With
donor phone 712345678 the created record holds phone 254712345678. -/
theorem donate_phone_not_verbatim :
    sampleReq.phone = "712345678" ∧
    ((donate [] sampleReq ⟨200, some "tok"⟩ ⟨200, "", ⟨some "CRID", "rest"⟩⟩
      "D").store.map DonationRecord.phone = [Value.str "254712345678"]) ∧
    Value.str "254712345678" ≠ Value.str "712345678" := by
  decide

/-- C4 (amended): when the token exchange returns 200 with a token and the
push returns 200 with a truthy CheckoutRequestID, /donate appends exactly
one record with status Pending, keyed by that token, preserving the donor
name, amount, email and message verbatim and storing the donor phone with
the 254 country prefix prepended; the push JSON is returned to the caller. -/
theorem donate_creates_pending_record
    (store : List DonationRecord) (data : DonationRequest)
    (tokenResp : AuthResponse) (stkResp : PushResponse)
    (createdAt tok cid : String)
    (ha : tokenResp.status = 200)
    (_htok : tokenResp.access_token = some tok)
    (hp : stkResp.status = 200)
    (hc : stkResp.json.checkoutRequestID = some cid)
    (hc2 : cid ≠ "") :
    (donate store data tokenResp stkResp createdAt).store = store ++ [{
        name := data.name
        phone := Value.str ("254" ++ data.phone)
        amount := Value.int data.amount
        email := data.email
        message := data.message
        status := "Pending"
        checkout_request_id := cid
        created_at := createdAt }] ∧
    (donate store data tokenResp stkResp createdAt).response = .ok stkResp.json := by
  unfold donate
  rw [if_neg (by simp [ha]), if_neg (by simp [hp]),
    if_neg (by rw [hc]; simpa [falsyStr] using hc2)]
  refine ⟨?_, rfl⟩
  simp [hc]

/-- C4 witness: the amended theorem at a concrete donation request with both
upstream services succeeding and token CRID. -/
theorem donate_creates_pending_record_witness :
    (donate [] sampleReq ⟨200, some "tok"⟩ ⟨200, "", ⟨some "CRID", "rest"⟩⟩
      "D").store = [] ++ [{
        name := sampleReq.name
        phone := Value.str ("254" ++ sampleReq.phone)
        amount := Value.int sampleReq.amount
        email := sampleReq.email
        message := sampleReq.message
        status := "Pending"
        checkout_request_id := "CRID"
        created_at := "D" }] ∧
    (donate [] sampleReq ⟨200, some "tok"⟩ ⟨200, "", ⟨some "CRID", "rest"⟩⟩
      "D").response = .ok ⟨some "CRID", "rest"⟩ :=
  donate_creates_pending_record [] sampleReq ⟨200, some "tok"⟩
    ⟨200, "", ⟨some "CRID", "rest"⟩⟩ "D" "tok" "CRID"
    rfl rfl rfl rfl (by decide)

/-- C5 counterexample: in the src/app.py revision a 200 token response that
omits access_token does NOT fail — the handler proceeds with a null token,
and when the push succeeds with a CheckoutRequestID it even creates a
record, contradicting the claim that a missing token yields a 500 and no
record. -/
theorem donate_missing_token_no_error :
    ((donate [] sampleReq ⟨200, none⟩ ⟨200, "", ⟨some "CRID", "rest"⟩⟩
      "D").response = .ok ⟨some "CRID", "rest"⟩) ∧
    (donate [] sampleReq ⟨200, none⟩ ⟨200, "", ⟨some "CRID", "rest"⟩⟩
      "D").store ≠ [] := by
  decide

/-- C5 (amended): a non-200 token response yields a 500 error with no record
created in the src/app.py revision, and the same 500 in src/main.py (which
never creates records); a 200 response with a falsy access_token yields a
500 only in the src/main.py revision — src/app.py performs no such check. -/
theorem donate_auth_error_cases
    (store : List DonationRecord) (data : DonationRequest)
    (tokenResp : AuthResponse) (stkResp : PushResponse) (createdAt : String) :
    (tokenResp.status ≠ 200 →
      (donate store data tokenResp stkResp createdAt).store = store ∧
      (donate store data tokenResp stkResp createdAt).response =
        .httpError 500 "Failed to authenticate with Safaricom") ∧
    (tokenResp.status ≠ 200 →
      donate_main data tokenResp stkResp =
        .httpError 500 "Failed to authenticate with Safaricom") ∧
    (tokenResp.status = 200 → falsyStr tokenResp.access_token = true →
      donate_main data tokenResp stkResp =
        .httpError 500 "Access token not found in Safaricom response.") := by
  refine ⟨?_, ?_, ?_⟩
  · intro h
    unfold donate
    rw [if_pos h]
    exact ⟨rfl, rfl⟩
  · intro h
    unfold donate_main
    rw [if_pos h]
  · intro h1 h2
    unfold donate_main
    rw [if_neg (by simp [h1]), if_pos h2]

/-- C5 witness: the amended theorem at a 401 token response (both
revisions) and at a 200 token response with the token field absent
(src/main.py revision). -/
theorem donate_auth_error_cases_witness :
    ((donate [] sampleReq ⟨401, none⟩ ⟨200, "", ⟨some "CRID", "rest"⟩⟩
      "D").store = [] ∧
    (donate [] sampleReq ⟨401, none⟩ ⟨200, "", ⟨some "CRID", "rest"⟩⟩
      "D").response = .httpError 500 "Failed to authenticate with Safaricom") ∧
    (donate_main sampleReq ⟨401, none⟩ ⟨200, "", ⟨some "CRID", "rest"⟩⟩ =
      .httpError 500 "Failed to authenticate with Safaricom") ∧
    (donate_main sampleReq ⟨200, none⟩ ⟨200, "", ⟨some "CRID", "rest"⟩⟩ =
      .httpError 500 "Access token not found in Safaricom response.") :=
  ⟨(donate_auth_error_cases [] sampleReq ⟨401, none⟩
      ⟨200, "", ⟨some "CRID", "rest"⟩⟩ "D").1 (by decide),
   (donate_auth_error_cases [] sampleReq ⟨401, none⟩
      ⟨200, "", ⟨some "CRID", "rest"⟩⟩ "D").2.1 (by decide),
   (donate_auth_error_cases [] sampleReq ⟨200, none⟩
      ⟨200, "", ⟨some "CRID", "rest"⟩⟩ "D").2.2 rfl rfl⟩

/-- C6: a callback whose result code is present and non-zero mutates no
stored record and returns the fixed failed-or-cancelled acknowledgement
(delivered, like every callback acknowledgement, with HTTP 200). -/
theorem mpesa_callback_nonzero_result (store : List DonationRecord)
    (body : CallbackEnvelope) (now : String) (rc : Int)
    (h1 : (getStk body).resultCode = some rc) (h2 : rc ≠ 0) :
    (mpesa_callback store body now).store = store ∧
      (mpesa_callback store body now).message = "Payment failed or cancelled" := by
  have h : (getStk body).resultCode ≠ some 0 := by
    rw [h1]
    simp [h2]
  rw [mpesa_callback_not_zero store body now h]
  exact ⟨rfl, rfl⟩

/-- C6 witness: a declined callback with result code 1 leaves a one-record
store untouched. -/
theorem mpesa_callback_nonzero_result_witness :
    (mpesa_callback [sampleRec] failBody "T1").store = [sampleRec] ∧
      (mpesa_callback [sampleRec] failBody "T1").message =
        "Payment failed or cancelled" :=
  mpesa_callback_nonzero_result [sampleRec] failBody "T1" 1 rfl (by decide)

/-- C7: when the token exchange succeeds and the push returns 200 but its
JSON omits CheckoutRequestID, no record is created and the raw push JSON is
still returned to the caller as the result. -/
theorem donate_missing_checkout_id
    (store : List DonationRecord) (data : DonationRequest)
    (tokenResp : AuthResponse) (stkResp : PushResponse) (createdAt : String)
    (ha : tokenResp.status = 200) (hp : stkResp.status = 200)
    (hc : stkResp.json.checkoutRequestID = none) :
    (donate store data tokenResp stkResp createdAt).store = store ∧
    (donate store data tokenResp stkResp createdAt).response = .ok stkResp.json := by
  unfold donate
  rw [if_neg (by simp [ha]), if_neg (by simp [hp]),
    if_pos (by rw [hc]; rfl)]
  exact ⟨rfl, rfl⟩

/-- C7 witness: a 200 push response with no CheckoutRequestID creates no
record and is echoed back. -/
theorem donate_missing_checkout_id_witness :
    (donate [] sampleReq ⟨200, some "tok"⟩ ⟨200, "", ⟨none, "rest"⟩⟩
      "D").store = [] ∧
    (donate [] sampleReq ⟨200, some "tok"⟩ ⟨200, "", ⟨none, "rest"⟩⟩
      "D").response = .ok ⟨none, "rest"⟩ :=
  donate_missing_checkout_id [] sampleReq ⟨200, some "tok"⟩
    ⟨200, "", ⟨none, "rest"⟩⟩ "D" rfl rfl rfl

/-- C8: the password derivation is deterministic and identical in both
revisions: it is exactly base64 of the byte concatenation
shortcode ++ passkey ++ timestamp; evaluated at the concrete triple
(174379, passkey, 20240101120000) it yields the expected base64 text. -/
theorem password_spec (shortcode passkey timestamp : List Nat) :
    password_app shortcode passkey timestamp =
      b64encode (shortcode ++ passkey ++ timestamp) ∧
    password_app shortcode passkey timestamp =
      password_main shortcode passkey timestamp ∧
    password_app (strBytes "174379") (strBytes "passkey")
      (strBytes "20240101120000") =
      strBytes "MTc0Mzc5cGFzc2tleTIwMjQwMTAxMTIwMDAw" :=
  ⟨rfl, rfl, by decide⟩

/-- C9: when the nested result-code field is entirely absent (missing Body,
stkCallback or ResultCode), the handler takes the declined branch — None
compares unequal to 0 — so the store is untouched and the acknowledgement
is the failed-or-cancelled message, not the missing-metadata one. -/
theorem mpesa_callback_absent_result_code (store : List DonationRecord)
    (body : CallbackEnvelope) (now : String)
    (h : (getStk body).resultCode = none) :
    (mpesa_callback store body now).store = store ∧
      (mpesa_callback store body now).message = "Payment failed or cancelled" ∧
      (mpesa_callback store body now).message ≠ "Missing payment metadata" := by
  have hne : (getStk body).resultCode ≠ some 0 := by
    rw [h]
    simp
  rw [mpesa_callback_not_zero store body now hne]
  refine ⟨rfl, rfl, ?_⟩
  show ("Payment failed or cancelled" : String) ≠ "Missing payment metadata"
  decide

/-- C9 witness: a callback with no Body at all leaves a one-record store
untouched and is acknowledged as failed-or-cancelled. -/
theorem mpesa_callback_absent_result_code_witness :
    (mpesa_callback [sampleRec] absentBody "T1").store = [sampleRec] ∧
      (mpesa_callback [sampleRec] absentBody "T1").message =
        "Payment failed or cancelled" ∧
      (mpesa_callback [sampleRec] absentBody "T1").message ≠
        "Missing payment metadata" :=
  mpesa_callback_absent_result_code [sampleRec] absentBody "T1" rfl

/-- C10: the src/main.py revision touches no store: /donate passes any
ambient store through unchanged (its module has no database client), the
callback handler performs no lookup and no mutation for any payload and
always returns the fixed acknowledgement, so no record ever changes status
— in particular none ever transitions to Paid in that revision. -/
theorem main_revision_pure (store : List DonationRecord)
    (data : DonationRequest) (tokenResp : AuthResponse) (stkResp : PushResponse)
    (body : CallbackEnvelope) (i : Nat) :
    (donate_main_st store data tokenResp stkResp).1 = store ∧
    (mpesa_callback_main store body).store = store ∧
    (mpesa_callback_main store body).message = "Callback received successfully" ∧
    ((mpesa_callback_main store body).store)[i]?.map DonationRecord.status =
      store[i]?.map DonationRecord.status :=
  ⟨rfl, rfl, rfl, rfl⟩

end Daraga

